import Mathlib

/-!
Verification of the smart-contract analysis core (contract_helpers.py /
contract_utils.py) via a shallow embedding in Lean.

Conventions of the embedding:
- Python strings are Lean `String`s; most scanning work happens on `List Char`
  (the `.data` of a string) so that everything reduces well in the kernel.
- Python `pat in s` is `occursIn pat s`; Python `s.count(pat)` (non-overlapping,
  left to right) is `strCount s pat`; `s.startswith(p)` is `strStarts s p`;
  `s.strip()` is `pyStrip`; `s.lower()` is `lowerStr` (ASCII, as all the
  constant keywords of the source are ASCII); `s.split('\n')` is `pyLines`;
  `s.split()` is `wsTokens`.
- The regular expressions of the source are small and are compiled here by hand
  into leftmost-match scanners with the same backtracking behaviour (documented
  at each one).
- Machine integers do not occur: Python's ints are `Nat`/`Int`; scores that can
  go negative (clarity) are `Int`.
-/

namespace SCAnalysis

/-- Character equality via code points (kernel-friendly). -/
def chEq (a b : Char) : Bool := a.toNat == b.toNat

/-- Python's notion of whitespace for `str.strip` / `str.split` / `\s`
(space, tab, newline, carriage return, vertical tab, form feed). -/
def pySpace (c : Char) : Bool :=
  chEq c ' ' || chEq c '\t' || chEq c '\n' || chEq c '\r' || c.toNat == 11 || c.toNat == 12

/-- A `\w` word character (ASCII letters, digits, underscore). -/
def isWordChar (c : Char) : Bool := c.isAlphanum || chEq c '_'

/-- `listStarts pre l` : `pre` is a prefix of `l`. -/
def listStarts : List Char → List Char → Bool
  | [], _ => true
  | _ :: _, [] => false
  | a :: pre, b :: l => chEq a b && listStarts pre l

/-- Substring test on character lists (Python `pat in s` with `l = s`, `pat = pat`). -/
def hasSubstrL : List Char → List Char → Bool
  | [], pat => pat.isEmpty
  | c :: rest, pat => listStarts pat (c :: rest) || hasSubstrL rest pat

/-- Worker for the occurrence count: scan one character at a time; `skip`
counts characters still covered by the previous match, inside which no new
match may start (this makes the count non-overlapping, as Python's is, and
keeps the recursion structural). -/
def countOccGo (pat : List Char) : List Char → Nat → Nat
  | [], _ => 0
  | _ :: rest, skip + 1 => countOccGo pat rest skip
  | c :: rest, 0 =>
    if listStarts pat (c :: rest) then 1 + countOccGo pat rest (pat.length - 1)
    else countOccGo pat rest 0

/-- Non-overlapping left-to-right occurrence count, matching Python `str.count`
for a non-empty pattern: after a match of length `k` at position `i`, the scan
resumes at `i + k`. -/
def countOccL (l pat : List Char) : Nat := countOccGo pat l 0

/-- Python `pat in s`. -/
def occursIn (pat s : String) : Bool := hasSubstrL s.data pat.data

/-- Python `s.count(pat)`. -/
def strCount (s pat : String) : Nat := countOccL s.data pat.data

/-- Python `s.startswith(pre)`. -/
def strStarts (s pre : String) : Bool := listStarts pre.data s.data

/-- Python `s.lower()` (ASCII range, which covers every keyword the source uses). -/
def lowerStr (s : String) : String := String.mk (s.data.map Char.toLower)

/-- Strip leading and trailing Python whitespace from a character list. -/
def stripChars (l : List Char) : List Char :=
  ((l.dropWhile pySpace).reverse.dropWhile pySpace).reverse

/-- Python `s.strip()`. -/
def pyStrip (s : String) : String := String.mk (stripChars s.data)

/-- Worker for `pyLines`: split on every newline character. -/
def splitNlGo : List Char → List Char → List String
  | acc, [] => [String.mk acc.reverse]
  | acc, c :: rest =>
    if chEq c '\n' then String.mk acc.reverse :: splitNlGo [] rest
    else splitNlGo (c :: acc) rest

/-- Python `s.split('\n')` (so `pyLines "" = [""]`, one line). -/
def pyLines (s : String) : List String := splitNlGo [] s.data

/-- Worker for `wsTokens`: split on runs of whitespace, dropping empty pieces,
like Python `s.split()` with no argument. -/
def wsTokensGo : List Char → List Char → List String
  | acc, [] => if acc.isEmpty then [] else [String.mk acc.reverse]
  | acc, c :: rest =>
    if pySpace c then
      if acc.isEmpty then wsTokensGo [] rest
      else String.mk acc.reverse :: wsTokensGo [] rest
    else wsTokensGo (c :: acc) rest

/-- Python `s.split()` (whitespace tokenisation). -/
def wsTokens (s : String) : List String := wsTokensGo [] s.data

/-- Decimal digits to a number, as Python `int` applied to a digit string. -/
def digitsToNat (ds : List Char) : Nat :=
  ds.foldl (fun n c => n * 10 + (c.toNat - 48)) 0

/-- One anchored attempt of the regex `:(\d+):` at the head of `cs`: a colon,
then a maximal non-empty digit run, then a colon (the greedy `\d+` cannot
backtrack usefully because a shorter digit run is followed by a digit). -/
def colonNumAt (cs : List Char) : Option Nat :=
  match cs with
  | ':' :: rest =>
    let ds := rest.takeWhile Char.isDigit
    if ds.isEmpty then none
    else match rest.drop ds.length with
      | ':' :: _ => some (digitsToNat ds)
      | _ => none
  | _ => none

/-- `re.search(r':(\d+):', s)` : leftmost match of `colonNumAt`. -/
def searchColonNum : List Char → Option Nat
  | [] => none
  | c :: rest =>
    match colonNumAt (c :: rest) with
    | some n => some n
    | none => searchColonNum rest

/-- One anchored attempt of `kw\s+(\w+)` at the head of `cs`: the literal
keyword, at least one whitespace, then a maximal non-empty word run (the
greedy `\s+`/`\w+` cannot backtrack usefully, as in `colonNumAt`). -/
def keywordNameAt (kw : List Char) (cs : List Char) : Option String :=
  if listStarts kw cs then
    let cs1 := cs.drop kw.length
    let sp := cs1.takeWhile pySpace
    if sp.isEmpty then none
    else
      let w := (cs1.drop sp.length).takeWhile isWordChar
      if w.isEmpty then none else some (String.mk w)
  else none

/-- `re.search(r'kw\s+(\w+)', s)` : leftmost match. -/
def keywordNameSearch (kw : List Char) : List Char → Option String
  | [] => none
  | c :: rest =>
    match keywordNameAt kw (c :: rest) with
    | some r => some r
    | none => keywordNameSearch kw rest

/-- The tail `\s*\w+\s+(\w+)` of the state-variable regex, anchored at `cs`;
returns the second capture group. All quantifiers are forced maximal (a
shorter greedy run would have to match a character of the wrong class). -/
def varTailAt (cs : List Char) : Option String :=
  let cs1 := cs.dropWhile pySpace
  let w := cs1.takeWhile isWordChar
  if w.isEmpty then none
  else
    let cs2 := cs1.drop w.length
    let sp := cs2.takeWhile pySpace
    if sp.isEmpty then none
    else
      let w2 := (cs2.drop sp.length).takeWhile isWordChar
      if w2.isEmpty then none else some (String.mk w2)

/-- One anchored attempt of `(public|private|internal)?\s*\w+\s+(\w+)`,
trying the alternatives of the optional group in the source order and then
the empty alternative, exactly as the backtracking engine does. -/
def varNameAt (cs : List Char) : Option String :=
  (if listStarts "public".data cs then varTailAt (cs.drop 6) else none).orElse fun _ =>
  (if listStarts "private".data cs then varTailAt (cs.drop 7) else none).orElse fun _ =>
  (if listStarts "internal".data cs then varTailAt (cs.drop 8) else none).orElse fun _ =>
  varTailAt cs

/-- `re.search(r'(public|private|internal)?\s*\w+\s+(\w+)', s)`, group 2. -/
def varNameSearch : List Char → Option String
  | [] => none
  | c :: rest =>
    match varNameAt (c :: rest) with
    | some r => some r
    | none => varNameSearch rest

/-! ## get_contract_metrics (contract_helpers.py, lines 130-245) -/

/-- What the inventory loop of `get_contract_metrics` appends for one line. -/
inductive MetricItem where
  | imp : String → MetricItem
  | fn : String → MetricItem
  | md : String → MetricItem
  | ev : String → MetricItem
  | sv : String → MetricItem

/-- The `elif` chain of the inventory loop of `get_contract_metrics`, one line
at a time. A branch that is entered but whose regex fails appends nothing
(and, being an `elif` chain, no later branch runs). -/
def metricsItemOfLine (line : String) : Option MetricItem :=
  let st := pyStrip line
  if strStarts st "import" then some (.imp st)
  else if strStarts st "function " && !occursIn "private" st && !occursIn "internal" st then
    (keywordNameSearch "function".data st.data).map .fn
  else if strStarts st "modifier " then
    (keywordNameSearch "modifier".data st.data).map .md
  else if strStarts st "event " then
    (keywordNameSearch "event".data st.data).map .ev
  else if (["uint", "int", "address", "string", "bool", "bytes", "mapping"].any
            fun t => strStarts st t) &&
          !(["function", "modifier", "event", "constructor"].any fun k => occursIn k st) then
    (varNameSearch st.data).map .sv
  else none

/-- The five inventory lists are each the sub-list of lines whose branch fired;
the source builds them in one scan, appending to independent lists, so each
list is the `filterMap` of its own extractor. -/
def metricsImports (lines : List String) : List String :=
  lines.filterMap fun l => match metricsItemOfLine l with | some (.imp s) => some s | _ => none

def metricsFunctionNames (lines : List String) : List String :=
  lines.filterMap fun l => match metricsItemOfLine l with | some (.fn n) => some n | _ => none

def metricsModifierNames (lines : List String) : List String :=
  lines.filterMap fun l => match metricsItemOfLine l with | some (.md n) => some n | _ => none

def metricsEventNames (lines : List String) : List String :=
  lines.filterMap fun l => match metricsItemOfLine l with | some (.ev n) => some n | _ => none

def metricsVariableNames (lines : List String) : List String :=
  lines.filterMap fun l => match metricsItemOfLine l with | some (.sv n) => some n | _ => none

/-- The fixed token set of the cyclomatic-complexity count. -/
def complexityKeywords : List String :=
  ["if", "else", "for", "while", "do", "switch", "case", "&&", "||", "?"]

/-- Cyclomatic complexity: base 1 plus, over all lines, `line.count(keyword)`
for each keyword. -/
def cyclomaticOf (lines : List String) : Nat :=
  1 + (lines.map fun l => (complexityKeywords.map fun k => strCount l k).sum).sum

/-- The six boolean security-feature flags, substring tests on the whole code. -/
structure SecFeatures where
  reentrancy_guard : Bool
  access_control : Bool
  pausable : Bool
  safe_math : Bool
  emergency_stop : Bool
  rate_limiting : Bool
deriving DecidableEq

def secFeaturesOf (code : String) : SecFeatures :=
  { reentrancy_guard := occursIn "ReentrancyGuard" code
  , access_control := ["onlyOwner", "AccessControl", "Ownable"].any fun k => occursIn k code
  , pausable := occursIn "Pausable" code
  , safe_math := occursIn "SafeMath" code || occursIn "pragma solidity ^0.8" code
  , emergency_stop := occursIn "emergencyStop" code
  , rate_limiting := occursIn "dailyLimit" code || occursIn "rateLimit" code }

/-- A `Bool` summed as Python sums booleans. -/
def b2n (b : Bool) : Nat := if b then 1 else 0

/-- `sum(security_features.values())`. -/
def secCount (f : SecFeatures) : Nat :=
  b2n f.reentrancy_guard + b2n f.access_control + b2n f.pausable +
  b2n f.safe_math + b2n f.emergency_stop + b2n f.rate_limiting

/-- The data of `get_contract_metrics` that the claims are about (the
floating-point `comment_ratio`/`overall` fields and the gas-optimization flag
record, which no score depends on, are not modelled). -/
structure MetricsData where
  total_lines : Nat
  code_lines : Nat
  comment_lines : Nat
  empty_lines : Nat
  function_names : List String
  modifier_names : List String
  event_names : List String
  variable_names : List String
  imports : List String
  cyclomatic_complexity : Nat
  complexity_score : Nat
  complexity_rating : String
  security_features : SecFeatures
  maintainability : Int
  security : Nat

/-- `get_contract_metrics` (the `try` body always succeeds: every step is a
total computation and the one ratio division is guarded by `max(total, 1)`). -/
def metricsCore (contract_code : String) : MetricsData :=
  let lines := pyLines contract_code
  let total_lines := lines.length
  let code_lines :=
    (lines.filter fun l => !(pyStrip l).isEmpty && !strStarts (pyStrip l) "//").length
  let comment_lines := (lines.filter fun l => strStarts (pyStrip l) "//").length
  let empty_lines := total_lines - code_lines - comment_lines
  let functions := metricsFunctionNames lines
  let state_variables := metricsVariableNames lines
  let cc := cyclomaticOf lines
  let complexity_score := min 100 (functions.length * 5 + cc * 2 + state_variables.length * 3)
  let maintainability : Int := max 0 (100 - (complexity_score : Int) + (comment_lines : Int) * 2)
  let sec := secFeaturesOf contract_code
  { total_lines := total_lines
  , code_lines := code_lines
  , comment_lines := comment_lines
  , empty_lines := empty_lines
  , function_names := functions
  , modifier_names := metricsModifierNames lines
  , event_names := metricsEventNames lines
  , variable_names := state_variables
  , imports := metricsImports lines
  , cyclomatic_complexity := cc
  , complexity_score := complexity_score
  , complexity_rating :=
      if complexity_score < 30 then "low" else if complexity_score < 60 then "medium" else "high"
  , security_features := sec
  , maintainability := maintainability
  , security := secCount sec * 15 }

/-! ## suggest_improvements (contract_helpers.py, lines 248-452) -/

/-- One suggestion. The source stores each finding as a dict carrying exactly
one of the keys `severity` / `priority` / `impact` (advanced-pattern findings
carry none); the scoring reads them with that fallback order. The other dict
keys (`type`, `category`, ...) play no role in any claim and only the message
text is kept. -/
structure Sugg where
  severity : Option String
  priority : Option String
  impact : Option String
  line : Option Nat
  text : String

/-- `suggestion.get("severity", suggestion.get("priority", suggestion.get("impact", "medium")))`. -/
def labelOf (s : Sugg) : String :=
  ((s.severity.orElse fun _ => s.priority).orElse fun _ => s.impact).getD "medium"

/-- `priority_scores.get(label, 50)` with the table critical=100, high=80,
medium=60, low=40. -/
def prioScore (l : String) : Nat :=
  if l = "critical" then 100
  else if l = "high" then 80
  else if l = "medium" then 60
  else if l = "low" then 40
  else 50

def weightOf (s : Sugg) : Nat := prioScore (labelOf s)

/-- The per-line loop rules: for a line containing `for (`, one low-impact
finding if it contains `i++` and one medium-impact finding if it contains
`.length`, in that order. -/
def loopSuggsOfLine (i : Nat) (line : String) : List Sugg :=
  if occursIn "for (" line then
    (if occursIn "i++" line then
      [⟨none, none, some "low", some (i + 1), "Use ++i instead of i++ in loops to save gas"⟩]
     else []) ++
    (if occursIn ".length" line then
      [⟨none, none, some "medium", some (i + 1),
        "Cache array length before loop to avoid repeated SLOAD operations"⟩]
     else [])
  else []

def gasSuggsOf (code : String) (lines : List String) : List Sugg :=
  (if occursIn "uint256" code && !occursIn "uint8" code then
    [⟨none, none, some "medium", none,
      "Consider using smaller uint types (uint8, uint16, uint32) for variables that don\x27t need the full range of uint256"⟩]
   else []) ++
  (if strCount code "mapping(" > 3 then
    [⟨none, none, some "high", none,
      "Multiple mappings detected. Consider using structs to pack related data together"⟩]
   else []) ++
  (if occursIn "string" code && !occursIn "bytes32" code then
    [⟨none, none, some "medium", none,
      "For fixed-length strings, consider using bytes32 instead of string to save gas"⟩]
   else []) ++
  (lines.enum.map fun p => loopSuggsOfLine p.1 p.2).flatten

def securitySuggsOf (code : String) (lines : List String) : List Sugg :=
  (if !occursIn "require(" code && !occursIn "assert(" code then
    [⟨some "high", none, none, none,
      "Add require() statements for input validation to prevent invalid states"⟩]
   else []) ++
  (if !occursIn "onlyOwner" code && !occursIn "AccessControl" code &&
      (["mint", "burn", "pause", "withdraw"].any fun f => occursIn f code) then
    [⟨some "critical", none, none, none,
      "Add access control to sensitive functions like mint, burn, pause, withdraw"⟩]
   else []) ++
  (if !occursIn "ReentrancyGuard" code && occursIn ".call(" code then
    [⟨some "high", none, none, none, "Add ReentrancyGuard to functions that make external calls"⟩]
   else []) ++
  (if (lines.filter fun l => occursIn "function " l && occursIn "public" l).length >
      (lines.filter fun l => occursIn "event " l).length then
    [⟨some "medium", none, none, none,
      "Add events to important state-changing functions for better transparency and monitoring"⟩]
   else [])

/-- The long-function scan: a stateful pass that, on each line containing
`function `, flushes the previous open function when more than 50 lines were
seen since it opened, and otherwise counts lines while a function is open.
The final open function is never flushed (as in the source). -/
def longFunctionsGo : List String → Option String → Nat → List String
  | [], _, _ => []
  | l :: rest, cur, n =>
    if occursIn "function " l then
      match cur with
      | some c =>
        if n > 50 then c :: longFunctionsGo rest (some (pyStrip l)) 0
        else longFunctionsGo rest (some (pyStrip l)) 0
      | none => longFunctionsGo rest (some (pyStrip l)) 0
    else
      match cur with
      | some c => longFunctionsGo rest (some c) (n + 1)
      | none => longFunctionsGo rest none n

def qualitySuggsOf (code : String) (lines : List String) : List Sugg :=
  (if strCount code "// TODO" > 0 then
    [⟨none, some "high", none, none, "Remove TODO comments and implement missing functionality"⟩]
   else []) ++
  (let long := longFunctionsGo lines none 0
   if !long.isEmpty then
    [⟨none, some "medium", none, none,
      "Consider breaking down long functions: " ++ String.intercalate ", " (long.take 3)⟩]
   else []) ++
  (if strCount code "///" < strCount code "function " then
    [⟨none, some "medium", none, none,
      "Add NatSpec documentation (///) to functions for better code documentation"⟩]
   else [])

def advancedSuggsOf (code : String) : List Sugg :=
  (if !occursIn "factory" (lowerStr code) && strCount code "contract " > 1 then
    [⟨none, none, none, none,
      "Consider using Factory pattern for deploying multiple similar contracts"⟩]
   else []) ++
  (if !occursIn "proxy" (lowerStr code) && code.length > 10000 then
    [⟨none, none, none, none, "Consider implementing proxy pattern for contract upgradeability"⟩]
   else [])

structure SuggestData where
  gas_optimizations : List Sugg
  security_improvements : List Sugg
  code_quality : List Sugg
  advanced_patterns : List Sugg
  total_suggestions : Nat
  improvement_score : Int
  breakdown_critical : Nat
  breakdown_high : Nat
  breakdown_medium : Nat
  breakdown_low : Nat

/-- Count for the priority breakdown: findings whose `severity` or `priority`
key equals the label (the `impact` key is not consulted there). -/
def breakdownCount (l : String) (sgs : List Sugg) : Nat :=
  (sgs.filter fun s => s.severity == some l || s.priority == some l).length

/-- `suggest_improvements`. The total score is accumulated by a fold over the
combined finding list, as the source loop does; the improvement score is
`max(0, 100 - total_score // max(suggestion_count, 1))`. -/
def suggestCore (contract_code : String) : SuggestData :=
  let lines := pyLines contract_code
  let gas := gasSuggsOf contract_code lines
  let sec := securitySuggsOf contract_code lines
  let qual := qualitySuggsOf contract_code lines
  let adv := advancedSuggsOf contract_code
  let allSuggs := gas ++ sec ++ qual ++ adv
  let total := allSuggs.foldl (fun t s => t + weightOf s) 0
  { gas_optimizations := gas
  , security_improvements := sec
  , code_quality := qual
  , advanced_patterns := adv
  , total_suggestions := allSuggs.length
  , improvement_score := max 0 (100 - ((total / max allSuggs.length 1 : Nat) : Int))
  , breakdown_critical := breakdownCount "critical" allSuggs
  , breakdown_high := breakdownCount "high" allSuggs
  , breakdown_medium := breakdownCount "medium" allSuggs
  , breakdown_low := breakdownCount "low" allSuggs }

/-! ## analyze_gas_usage (contract_utils.py, lines 95-190) -/

/-- An ABI entry as a JSON-shaped dict: each field may be absent. A subscript
access (`item['type']`, `item['name']`) on an absent field raises a KeyError,
which the outer `try` of the source turns into an error result. -/
structure AbiEntry where
  ty : Option String
  name : Option String
  stateMutability : Option String
deriving DecidableEq

/-- Worker of `locateBody`: once a line containing `function <name>` has been
seen, collect lines and a running (signed) brace balance; stop after the first
collected line on which the balance is zero and some collected line contained
an opening brace. -/
def locBodyGo (needle : String) : List String → Bool → Int → Bool → List String
  | [], _, _, _ => []
  | l :: rest, inFn, bc, seen =>
    let inFn2 := inFn || occursIn needle l
    if inFn2 then
      let bc2 := bc + (countOccL l.data ['{'] : Int) - (countOccL l.data ['}'] : Int)
      let seen2 := seen || occursIn "\x7b" l
      if bc2 == 0 && seen2 then [l]
      else l :: locBodyGo needle rest inFn2 bc2 seen2
    else locBodyGo needle rest inFn2 bc seen

/-- The body-location scan of `analyze_gas_usage`: the joined lines from the
first line containing `function <funcName>` up to the line where the brace
balance returns to zero (or the end of the source if it never does). -/
def locateBody (contract_code funcName : String) : String :=
  String.intercalate "\n" (locBodyGo ("function " ++ funcName) (pyLines contract_code) false 0 false)

/-- The base gas cost: priority-ordered rules on mutability and the lowered
function name. -/
def funcBaseGas (funcName sm : String) : Nat :=
  if sm = "view" ∨ sm = "pure" then 500
  else if occursIn "mint" (lowerStr funcName) then 50000
  else if occursIn "transfer" (lowerStr funcName) then 21000
  else if occursIn "approve" (lowerStr funcName) then 45000
  else 25000

/-- Per-function estimate: the base cost plus, when a source text was given
(a non-empty string is truthy), the weighted counts found in the located
body, each guarded by a containment test as in the source. -/
def funcGasEstimate (contract_code funcName sm : String) : Nat :=
  let base := funcBaseGas funcName sm
  if contract_code = "" then base
  else
    let body := locateBody contract_code funcName
    let g1 := if occursIn "emit " body then base + 1000 * strCount body "emit " else base
    let g2 := if occursIn ".call(" body then g1 + 10000 * strCount body ".call(" else g1
    let g3 := if occursIn "require(" body then g2 + 500 * strCount body "require(" else g2
    if occursIn "mapping(" body then g3 + 5000 * strCount body "mapping(" else g3

/-- One value of the `function_estimates` dict. -/
structure FuncGas where
  estimated_gas : Nat
  state_mutability : String
  gas_category : String
deriving DecidableEq

def mkFuncGas (contract_code funcName sm : String) : FuncGas :=
  let g := funcGasEstimate contract_code funcName sm
  ⟨g, sm, if g < 30000 then "low" else if g < 60000 then "medium" else "high"⟩

/-- Python dict assignment on an insertion-ordered association list: an
existing key keeps its place and gets the new value, a new key is appended. -/
def assocSet : List (String × FuncGas) → String → FuncGas → List (String × FuncGas)
  | [], k, v => [(k, v)]
  | (k2, v2) :: rest, k, v =>
    if k2 = k then (k2, v) :: rest else (k2, v2) :: assocSet rest k v

def assocHasKey : List (String × FuncGas) → String → Bool
  | [], _ => false
  | (k2, _) :: rest, k => k2 == k || assocHasKey rest k

/-- The loop over the ABI. Accessing a missing `'type'` or `'name'` key raises
`KeyError('type')` / `KeyError('name')`, which the enclosing `try` converts
into the error envelope; the whole estimate is lost. -/
def gasLoop (contract_code : String) :
    List AbiEntry → List (String × FuncGas) → Except String (List (String × FuncGas))
  | [], acc => .ok acc
  | e :: rest, acc =>
    match e.ty with
    | none => .error "Gas analysis failed: \x27type\x27"
    | some t =>
      if t = "function" then
        match e.name with
        | none => .error "Gas analysis failed: \x27name\x27"
        | some n =>
          gasLoop contract_code rest
            (assocSet acc n (mkFuncGas contract_code n (e.stateMutability.getD "nonpayable")))
      else gasLoop contract_code rest acc

/-- The result data of `analyze_gas_usage` (the floating-point
`deployment_cost_eth` field is not modelled). -/
structure GasData where
  deployment_gas_estimate : Nat
  function_gas_estimates : List (String × FuncGas)
  total_functions : Nat
  average_function_gas : Nat
  optimizations : List String
  gas_efficiency_score : Nat

/-- `analyze_gas_usage`. The ABI is received already list-shaped (the source
accepts either a JSON string or a list and the claims quantify over lists). -/
def analyzeGasUsage (bytecode : String) (abi : List AbiEntry) (contract_code : String) :
    Except String GasData :=
  match gasLoop contract_code abi [] with
  | .error m => .error m
  | .ok ests =>
    let deployment := bytecode.length / 2 * 200
    let highNames := (ests.filter fun p => p.2.estimated_gas > 60000).map (·.1)
    let opts :=
      (if deployment > 1000000 then
        ["Contract is large. Consider splitting into multiple contracts or using libraries."]
       else []) ++
      (if !highNames.isEmpty then
        ["High gas functions detected: " ++ String.intercalate ", " highNames ++
         ". Consider optimization."]
       else []) ++
      (if contract_code = "" then []
       else
        (if strCount contract_code "for (" > 3 then
          ["Multiple loops detected. Consider batch processing or pagination."]
         else []) ++
        (if strCount contract_code "mapping(" > 5 then
          ["Many mappings detected. Consider struct packing for gas efficiency."]
         else []))
    .ok { deployment_gas_estimate := deployment
        , function_gas_estimates := ests
        , total_functions := ests.length
        , average_function_gas :=
            if ests.isEmpty then 0
            else (ests.map fun p => p.2.estimated_gas).sum / ests.length
        , optimizations := opts
        , gas_efficiency_score := 100 - opts.length * 15 }

/-! ## handle_compilation_errors (contract_helpers.py, lines 891-984) -/

structure ErrInfo where
  original_error : String
  error_type : String
  line_number : Option Nat
  suggestion : String
deriving DecidableEq

/-- The per-message classification: the line number comes from the first
`:(\d+):` match, the kind from the first matching marker substring, the
suggestion from a sub-pattern within the kind (defaulting to the generic
message). -/
def parseCompError (e : String) : ErrInfo :=
  let dflt := "Check the error message for details"
  let ln := searchColonNum e.data
  if occursIn "ParserError" e then
    { original_error := e, error_type := "syntax_error", line_number := ln
    , suggestion :=
        if occursIn "Expected" e then "Check syntax - missing semicolon, bracket, or parenthesis"
        else if occursIn "Unexpected" e then "Remove unexpected character or check syntax"
        else dflt }
  else if occursIn "TypeError" e then
    { original_error := e, error_type := "type_error", line_number := ln
    , suggestion :=
        if occursIn "not found" e then
          "Check if variable/function is declared and spelled correctly"
        else if occursIn "not compatible" e then
          "Check data types - ensure compatible types for assignment/comparison"
        else if occursIn "not callable" e then
          "Check if you\x27re trying to call a variable as a function"
        else dflt }
  else if occursIn "DeclarationError" e then
    { original_error := e, error_type := "declaration_error", line_number := ln
    , suggestion :=
        if occursIn "already declared" e then
          "Variable or function name already exists - use a different name"
        else if occursIn "not declared" e then
          "Declare the variable or import the contract/library"
        else dflt }
  else if occursIn "CompilerError" e then
    { original_error := e, error_type := "compiler_error", line_number := ln
    , suggestion := "Internal compiler error - try different solidity version" }
  else if occursIn "Warning" e then
    { original_error := e, error_type := "warning", line_number := ln
    , suggestion :=
        if occursIn "unused" e then
          "Remove unused variables/imports or prefix with underscore"
        else if occursIn "deprecated" e then "Update to use newer syntax or functions"
        else dflt }
  else
    { original_error := e, error_type := "unknown", line_number := ln, suggestion := dflt }

/-- The result data of `handle_compilation_errors` (the `error_types` output
field is `list(set(...))`, whose order CPython leaves unspecified, so it is
not modelled; the membership tests that drive the general suggestions are). -/
structure DiagData where
  parsed_errors : List ErrInfo
  total_errors : Nat
  severity_critical : Nat
  severity_high : Nat
  severity_medium : Nat
  severity_low : Nat
  general_suggestions : List String
  fixable_errors : Nat

/-- `handle_compilation_errors`, on an already-parsed list of message strings. -/
def handleCompilationErrors (errors : List String) : DiagData :=
  let parsed := errors.map parseCompError
  { parsed_errors := parsed
  , total_errors := parsed.length
  , severity_critical :=
      (parsed.filter fun p =>
        p.error_type = "syntax_error" ∨ p.error_type = "compiler_error").length
  , severity_high :=
      (parsed.filter fun p =>
        p.error_type = "type_error" ∨ p.error_type = "declaration_error").length
  , severity_medium := (parsed.filter fun p => p.error_type = "warning").length
  , severity_low := 0
  , general_suggestions :=
      (if parsed.any fun p => p.error_type == "syntax_error" then
        ["Review code syntax carefully - check for missing semicolons, brackets, and parentheses"]
       else []) ++
      (if parsed.any fun p => p.error_type == "type_error" then
        ["Verify all variable types and function signatures match their usage"]
       else []) ++
      (if parsed.any fun p => p.error_type == "declaration_error" then
        ["Ensure all variables and functions are properly declared before use"]
       else [])
  , fixable_errors := (parsed.filter fun p => p.error_type ≠ "compiler_error").length }

/-! ## validate_user_input (contract_helpers.py, lines 987-1113) -/

/-- The contract-type indicator table, in the source's insertion order. -/
def contractIndicators : List (String × List String) :=
  [ ("erc20", ["token", "erc20", "fungible", "currency", "coin"])
  , ("erc721", ["nft", "erc721", "non-fungible", "collectible", "unique"])
  , ("erc1155", ["erc1155", "multi-token", "batch", "gaming"])
  , ("dao", ["dao", "governance", "voting", "proposal", "community"])
  , ("dex", ["dex", "exchange", "swap", "liquidity", "trading"])
  , ("staking", ["staking", "stake", "reward", "yield", "farming"])
  , ("marketplace", ["marketplace", "auction", "buy", "sell", "listing"])
  , ("multisig", ["multisig", "multi-signature", "multiple owners", "threshold"]) ]

/-- The requirement keyword groups, in the source's insertion order. -/
def requirementKeywords : List (String × List String) :=
  [ ("name", ["name", "called", "title"])
  , ("symbol", ["symbol", "ticker", "abbreviation"])
  , ("supply", ["supply", "amount", "quantity", "total"])
  , ("features", ["feature", "function", "capability", "ability"])
  , ("access", ["owner", "admin", "permission", "access", "control"])
  , ("security", ["secure", "safe", "protection", "guard"]) ]

def complexityComplexWords : List String :=
  ["complex", "advanced", "custom", "sophisticated", "enterprise"]

def complexityFeatureWords : List String :=
  ["upgrade", "proxy", "oracle", "multi", "batch", "governance"]

/-- The final feasibility flag: feasible unless more than 3 pieces of required
info are missing or the clarity score is below 20. -/
def feasibleFlag (missing : List String) (clarity : Int) : Bool :=
  !(decide (missing.length > 3) || decide (clarity < 20))

structure ValidationData where
  is_feasible : Bool
  clarity_score : Int
  missing_info : List String
  suggestions : List String
  estimated_complexity : String
  recommended_contract_type : Option String
  clarifying_questions : List String
  detected_contract_types : List String
  found_requirements : List String
  word_count : Nat
  needs_clarification : Bool

/-- The body of `validate_user_input`. Clarity starts at 0, gains 30 for a
detected type, 10 per matched requirement group (the loop adds 10 each time,
so the sum is 10 times the number of matched groups), and is adjusted by the
word-count heuristic; it is an `Int` because it can go negative. -/
def validateCore (user_description : String) : ValidationData :=
  let description := lowerStr (pyStrip user_description)
  let detected :=
    (contractIndicators.filter fun p => p.2.any fun k => occursIn k description).map (·.1)
  let recommended := detected.head?
  let clarity1 : Int := if detected.isEmpty then 0 else 30
  let missing : List String := if detected.isEmpty then ["contract_type"] else []
  let sugg1 : List String :=
    if detected.isEmpty then
      ["Please specify what type of smart contract you want (e.g., token, NFT, DAO)"]
    else []
  let found :=
    (requirementKeywords.filter fun p => p.2.any fun k => occursIn k description).map (·.1)
  let clarity2 := clarity1 + 10 * (found.length : Int)
  let wc := (wsTokens description).length
  let clarity3 :=
    if wc < 5 then clarity2 - 20 else if wc > 100 then clarity2 + 20 else clarity2 + 10
  let sugg2 :=
    if wc < 5 then sugg1 ++ ["Please provide more details about your requirements"] else sugg1
  let cx : Nat :=
    1 + (if complexityComplexWords.any fun k => occursIn k description then 2 else 0)
      + (if complexityFeatureWords.any fun k => occursIn k description then 1 else 0)
      + (if found.length > 4 then 1 else 0)
  let est := if cx ≤ 2 then "simple" else if cx ≤ 4 then "moderate" else "complex"
  let qs :=
    (if missing.contains "contract_type" then
      ["What type of smart contract do you want to create? (e.g., ERC-20 token, NFT, DAO)"]
     else []) ++
    (if !found.contains "name" && recommended.isSome then
      ["What would you like to name your contract/token?"]
     else []) ++
    (if recommended == some "erc20" && !found.contains "symbol" then
      ["What symbol should your token have? (e.g., BTC, ETH)"]
     else []) ++
    (if recommended == some "erc20" && !found.contains "supply" then
      ["What should be the total supply of your token?"]
     else []) ++
    (if !found.contains "access" then
      ["Do you need access control? (e.g., only owner can mint, admin roles)"]
     else []) ++
    (if !found.contains "security" && est ≠ "simple" then
      ["What security features do you need? (e.g., pausable, reentrancy protection)"]
     else [])
  let feas := feasibleFlag missing clarity3
  { is_feasible := feas
  , clarity_score := clarity3
  , missing_info := missing
  , suggestions :=
      if feas then sugg2
      else sugg2 ++ ["Please provide more specific details about your requirements"]
  , estimated_complexity := est
  , recommended_contract_type := recommended
  , clarifying_questions := qs
  , detected_contract_types := detected
  , found_requirements := found
  , word_count := wc
  , needs_clarification := decide (qs.length > 0) }

/-- `validate_user_input` with its `try`/`except` envelope: the body is a
total pure computation, so the success branch is always taken. -/
def validateUserInput (user_description : String) : Except String ValidationData :=
  .ok (validateCore user_description)

/-! ## explain_generated_code (contract_utils.py, lines 638-873) -/

/-- One explanation section. `title` is the source's `section` key (a Lean
keyword); `line_end` is absent until the section is closed (the dicts of some
branches are created without the key). The prose `explanation`/`importance`
values influence nothing the spec claims and are not modelled. -/
structure Expl where
  title : String
  line_start : Nat
  line_end : Option Nat
  code : String

/-- Apply `f` to the last element (`explanations[-1]` updates). -/
def modifyLast (f : Expl → Expl) : List Expl → List Expl
  | [] => []
  | [e] => [f e]
  | e :: rest => e :: modifyLast f rest

/-- `explanations[-1]["line_end"] = i`. -/
def closeLast (i : Nat) (es : List Expl) : List Expl :=
  modifyLast (fun e => { e with line_end := some i }) es

/-- `explanations[-1]["code"] += "\n" + line_stripped`. -/
def appendCodeLast (s : String) (es : List Expl) : List Expl :=
  modifyLast (fun e => { e with code := e.code ++ "\n" ++ s }) es

/-- `line_stripped.split()[1].split('(')[0]` — the guard `startswith(kw ++ " ")`
on a stripped line guarantees a second whitespace token, so the fallback is
unreachable. -/
def secondTokenName (st : String) : String :=
  match wsTokens st with
  | _ :: t :: _ => String.mk (t.data.takeWhile fun c => !chEq c '(')
  | _ => ""

/-- The forward scan for the end of a modifier/constructor/function body:
from index `i`, the first index `j` at which the cumulative brace balance of
lines `i..j` is zero and `'{'` occurred in their concatenation; defaults to
`i` when the loop never breaks. -/
def findEndGo (dflt : Nat) : List String → Nat → Int → Bool → Nat
  | [], _, _, _ => dflt
  | l :: rest, j, bc, seen =>
    let bc2 := bc + (countOccL l.data ['{'] : Int) - (countOccL l.data ['}'] : Int)
    let seen2 := seen || occursIn "\x7b" l
    if bc2 == 0 && seen2 then j else findEndGo dflt rest (j + 1) bc2 seen2

def findSectionEnd (allLines : List String) (i : Nat) : Nat :=
  findEndGo i (allLines.drop i) i 0 false

/-- `'\n'.join(lines[i:e+1])`. -/
def joinSlice (allLines : List String) (i e : Nat) : String :=
  String.intercalate "\n" ((allLines.drop i).take (e - i + 1))

/-- The main scan of `explain_generated_code`; `i` is the 0-based index of the
head of the unscanned suffix, `cs` the `current_section` marker. One step per
line, in the source's `elif` order; lines matching no branch change nothing. -/
def explainLoop (allLines : List String) : List String → Nat → Option String → List Expl → List Expl
  | [], _, cs, es =>
    -- close the last section at end of document
    if cs.isSome && !es.isEmpty then closeLast allLines.length es else es
  | line :: rest, i, cs, es =>
    let st := pyStrip line
    if strStarts st "pragma solidity" then
      explainLoop allLines rest (i + 1) cs (es ++ [⟨"Pragma Declaration", i + 1, some (i + 1), st⟩])
    else if strStarts st "import " then
      if cs ≠ some "imports" then
        let es2 := if cs.isSome then closeLast i es else es
        explainLoop allLines rest (i + 1) (some "imports")
          (es2 ++ [⟨"Import Statements", i + 1, none, st⟩])
      else explainLoop allLines rest (i + 1) cs (appendCodeLast st es)
    else if strStarts st "contract " then
      let es2 := if cs.isSome then closeLast i es else es
      explainLoop allLines rest (i + 1) (some "contract_declaration")
        (es2 ++ [⟨"Contract Declaration", i + 1, none, st⟩])
    else if strStarts st "uint" || strStarts st "mapping" || strStarts st "address" ||
            strStarts st "string" || strStarts st "bool" then
      if occursIn "constant" st || occursIn "immutable" st then
        if cs ≠ some "constants" then
          let es2 := if cs.isSome then closeLast i es else es
          explainLoop allLines rest (i + 1) (some "constants")
            (es2 ++ [⟨"Constants & Immutable Variables", i + 1, none, st⟩])
        else explainLoop allLines rest (i + 1) cs (appendCodeLast st es)
      else
        if cs ≠ some "state_variables" then
          let es2 := if cs.isSome then closeLast i es else es
          explainLoop allLines rest (i + 1) (some "state_variables")
            (es2 ++ [⟨"State Variables", i + 1, none, st⟩])
        else explainLoop allLines rest (i + 1) cs (appendCodeLast st es)
    else if strStarts st "event " then
      if cs ≠ some "events" then
        let es2 := if cs.isSome then closeLast i es else es
        explainLoop allLines rest (i + 1) (some "events") (es2 ++ [⟨"Events", i + 1, none, st⟩])
      else explainLoop allLines rest (i + 1) cs (appendCodeLast st es)
    else if strStarts st "modifier " then
      let es2 := if cs.isSome then closeLast i es else es
      let e := findSectionEnd allLines i
      explainLoop allLines rest (i + 1) none
        (es2 ++ [⟨"Modifier: " ++ secondTokenName st, i + 1, some (e + 1), joinSlice allLines i e⟩])
    else if strStarts st "constructor" then
      let es2 := if cs.isSome then closeLast i es else es
      let e := findSectionEnd allLines i
      explainLoop allLines rest (i + 1) none
        (es2 ++ [⟨"Constructor", i + 1, some (e + 1), joinSlice allLines i e⟩])
    else if strStarts st "function " then
      let es2 := if cs.isSome then closeLast i es else es
      let e := findSectionEnd allLines i
      explainLoop allLines rest (i + 1) none
        (es2 ++ [⟨"Function: " ++ secondTokenName st, i + 1, some (e + 1), joinSlice allLines i e⟩])
    else explainLoop allLines rest (i + 1) cs es

structure ExplainData where
  explanations : List Expl
  total_sections : Nat
  functions : Nat
  modifiers : Nat
  events : Nat
  state_variables : Nat
  complexity : String
  total_lines : Nat
  complexity_score : Nat

/-- `explain_generated_code` (the `try` body always succeeds: under each
branch's guard the token extraction is total). -/
def explainCore (contract_code : String) : ExplainData :=
  let lines := pyLines contract_code
  let es := explainLoop lines lines 0 none []
  { explanations := es
  , total_sections := es.length
  , functions := (es.filter fun e => strStarts e.title "Function:").length
  , modifiers := (es.filter fun e => strStarts e.title "Modifier:").length
  , events := (es.filter fun e => e.title = "Events").length
  , state_variables := if es.any fun e => e.title == "State Variables" then 1 else 0
  , complexity := if es.length < 5 then "low" else if es.length < 10 then "medium" else "high"
  , total_lines := lines.length
  , complexity_score := min 100 (es.length * 8) }

/-! ## generate_contract_documentation, structural parse (contract_utils.py, lines 467-523) -/

/-- `contract_utils.py` never imports `re` (its module-level imports are
`json`, `os`, `tempfile`, `typing`, `pathlib`; nothing injects `re` later), so
the `re.search` calls inside `generate_contract_documentation`'s line loop
raise `NameError` when reached. A line reaches one exactly when it fires one
of the three `elif` branches: a stripped line starting with `function ` whose
raw text contains neither `internal` nor `private`, or a stripped line
starting with `event ` or with `modifier `. -/
def docLineRaises (line : String) : Bool :=
  let st := pyStrip line
  (strStarts st "function " && !occursIn "internal" line && !occursIn "private" line) ||
  strStarts st "event " || strStarts st "modifier "

/-- The `contract_structure` inventories of `generate_contract_documentation`.
Every append to them sits after a raising `re.search`, so on any success path
all three lists are empty; their element type is therefore immaterial and
names are used. -/
structure DocInfo where
  functions : List String
  events : List String
  modifiers : List String
deriving DecidableEq

/-- `generate_contract_documentation`: the first line that fires a branch
raises `NameError: name 're' is not defined`, which the enclosing `try`
converts into the error envelope (the envelope is the same whichever line
raises first, so an existence test over the lines is faithful); when no line
fires, the rest of the body is total string building and the success envelope
carries the empty inventories. -/
def generateContractDocumentation (contract_code : String) (_contract_name : String) :
    Except String DocInfo :=
  if (pyLines contract_code).any docLineRaises then
    .error "Documentation generation failed: name \x27re\x27 is not defined"
  else .ok ⟨[], [], []⟩

/-! ## Concrete inputs used by the claims, and a derived list -/

/-- The combined finding list of `suggest_improvements`, in the source's
concatenation order. -/
def allSuggsOf (code : String) : List Sugg :=
  gasSuggsOf code (pyLines code) ++ securitySuggsOf code (pyLines code) ++
  qualitySuggsOf code (pyLines code) ++ advancedSuggsOf code

/-- An ABI with one well-formed function entry and one entry missing its
`type` field, for C3. -/
def c3BadAbi : List AbiEntry :=
  [⟨some "function", some "doIt", some "nonpayable"⟩, ⟨none, none, none⟩]

/-- An ABI with one view function and one mint function, for C6. -/
def c6Abi : List AbiEntry :=
  [⟨some "function", some "getX", some "view"⟩, ⟨some "function", some "mintTokens", none⟩]

/-- A source with one `require(` in the body of `foo`, for C7. -/
def c7SourceOne : String := "function foo() public \x7b\nrequire(a);\n\x7d"

/-- The same source with one more `require(` in the body of `foo`. -/
def c7SourceTwo : String := "function foo() public \x7b\nrequire(a);\nrequire(b);\n\x7d"

/-- The dict key under which a function's estimate is stored (the default is
never consulted for well-formed entries). -/
def entryName (e : AbiEntry) : String := e.name.getD ""

/-- The scenario source of C1: the contract header and the function live on
one line. -/
def c1Source : String :=
  "pragma solidity ^0.8.19;\ncontract Foo \x7b function bar() public \x7b\x7d \x7d"

/-- A concrete diagnostic string for C8. -/
def c8Message : String := "ParserError: Expected token at :12: near x"

/-! ## Helper lemmas -/

/-- Containment is count-positivity (for a non-empty pattern). Both scans have
the same structure: at each position either the pattern matches (count at
least one, containment true) or both recurse on the tail. -/
theorem hasSubstrL_eq_decide_count (pat : List Char) (hp : pat ≠ []) :
    ∀ l : List Char, hasSubstrL l pat = decide (countOccL l pat ≠ 0)
  | [] => by
    cases pat with
    | nil => exact absurd rfl hp
    | cons a as => simp [hasSubstrL, countOccL, countOccGo, List.isEmpty]
  | c :: rest => by
    by_cases h : listStarts pat (c :: rest) = true
    · simp [hasSubstrL, countOccL, countOccGo, h]
    · have hb : listStarts pat (c :: rest) = false := by
        cases hx : listStarts pat (c :: rest)
        · rfl
        · exact absurd hx h
      simp only [hasSubstrL, countOccL, countOccGo, hb, Bool.false_or, if_false]
      exact hasSubstrL_eq_decide_count pat hp rest

/-- Equal occurrence counts give equal containment answers. -/
theorem occursIn_congr {p : String} (hp : p.data ≠ []) {a b : String}
    (h : strCount a p = strCount b p) : occursIn p a = occursIn p b := by
  unfold occursIn
  rw [hasSubstrL_eq_decide_count p.data hp, hasSubstrL_eq_decide_count p.data hp]
  unfold strCount at h
  rw [h]

/-- A positive count forces containment. -/
theorem occursIn_of_count_ne {p : String} (hp : p.data ≠ []) {a : String}
    (h : strCount a p ≠ 0) : occursIn p a = true := by
  unfold occursIn
  rw [hasSubstrL_eq_decide_count p.data hp]
  simpa using h

/-- A zero count forces non-containment. -/
theorem not_occursIn_of_count_zero {p : String} (hp : p.data ≠ []) {a : String}
    (h : strCount a p = 0) : occursIn p a = false := by
  unfold occursIn
  rw [hasSubstrL_eq_decide_count p.data hp]
  unfold strCount at h
  simp [h]

/-! ## Claim C1 -/

/-- C1 is false on the code: for the two-line scenario source,
`explain_generated_code` produces 2 sections, not 3 (its scan is line-level,
and the function shares the contract-declaration line), and
`get_contract_metrics` counts 0 functions, not 1 (no line starts with
`function `). -/
theorem c1_counterexample :
    ¬((explainCore c1Source).total_sections = 3 ∧
      (metricsCore c1Source).function_names.length = 1) := by decide

/-- C1 amended: the scenario source decomposes into exactly 2 sections,
Pragma Declaration then Contract Declaration, and the metrics report yields
functions=0, modifiers=0, events=0. -/
theorem c1_two_sections :
    (explainCore c1Source).total_sections = 2 ∧
    (explainCore c1Source).explanations.map Expl.title =
      ["Pragma Declaration", "Contract Declaration"] ∧
    (metricsCore c1Source).function_names = [] ∧
    (metricsCore c1Source).modifier_names = [] ∧
    (metricsCore c1Source).event_names = [] := by
  refine ⟨by decide, by decide, by decide, by decide, by decide⟩

/-! ## Claim C2 -/

/-- Each of the six boolean flags counts at most 1. -/
theorem secCount_le_six (f : SecFeatures) : secCount f ≤ 6 := by
  rcases f with ⟨a, b, c, d, e, g⟩
  cases a <;> cases b <;> cases c <;> cases d <;> cases e <;> cases g <;> decide

/-- C2 is false on the code: the maintainability score is only clamped below,
and on the two-comment-line source `"//\n//"` it is 102, outside [0,100]. -/
theorem c2_counterexample : 100 < (metricsCore "//\n//").maintainability := by decide

/-- C2 amended: the complexity score is clamped into [0,100] and the security
score is at most 90 (6 flags times 15), hence in [0,100]; the maintainability
score is clamped below at 0 but NOT above, and can exceed 100. -/
theorem c2_score_bounds (code : String) :
    (metricsCore code).complexity_score ≤ 100 ∧
    (metricsCore code).security ≤ 100 ∧
    0 ≤ (metricsCore code).maintainability := by
  refine ⟨?_, ?_, ?_⟩
  · have h : (metricsCore code).complexity_score =
        min 100 ((metricsCore code).function_names.length * 5 +
          (metricsCore code).cyclomatic_complexity * 2 +
          (metricsCore code).variable_names.length * 3) := rfl
    rw [h]
    exact Nat.min_le_left _ _
  · have h : (metricsCore code).security = secCount (secFeaturesOf code) * 15 := rfl
    rw [h]
    calc secCount (secFeaturesOf code) * 15 ≤ 6 * 15 :=
          Nat.mul_le_mul_right 15 (secCount_le_six _)
      _ ≤ 100 := by norm_num
  · have h : (metricsCore code).maintainability =
        max 0 (100 - ((metricsCore code).complexity_score : Int) +
          ((metricsCore code).comment_lines : Int) * 2) := rfl
    rw [h]
    exact le_max_left _ _

/-! ## Claim C5 -/

/-- The feasibility flag is false exactly under the documented condition. -/
theorem feasibleFlag_false_iff (m : List String) (c : Int) :
    feasibleFlag m c = false ↔ (m.length > 3 ∨ c < 20) := by
  unfold feasibleFlag
  by_cases h1 : m.length > 3 <;> by_cases h2 : c < 20 <;> simp [h1, h2]

/-- C5: the request `"simple token"` detects `erc20`, nets clarity
30 - 20 = 10, and is flagged infeasible; and in general the result is
infeasible exactly when more than 3 pieces of required info are missing or
the clarity score is below 20. -/
theorem c5_simple_token_feasibility :
    (validateCore "simple token").recommended_contract_type = some "erc20" ∧
    (validateCore "simple token").clarity_score = 10 ∧
    (validateCore "simple token").is_feasible = false ∧
    ∀ d : String,
      ((validateCore d).is_feasible = false ↔
        ((validateCore d).missing_info.length > 3 ∨ (validateCore d).clarity_score < 20)) := by
  refine ⟨by decide, by decide, by decide, fun d => ?_⟩
  have h : (validateCore d).is_feasible =
      feasibleFlag (validateCore d).missing_info (validateCore d).clarity_score := rfl
  rw [h]
  exact feasibleFlag_false_iff _ _

/-! ## Claim C9 -/

/-- C9: `validate_user_input` never throws (its body is total, so the success
envelope is always returned), and the empty request yields the unclamped
negative clarity score -20 and is infeasible. -/
theorem c9_empty_input_negative_clarity :
    (∀ d : String, ∃ v, validateUserInput d = Except.ok v) ∧
    (validateCore "").clarity_score = -20 ∧
    (validateCore "").clarity_score < 0 ∧
    (validateCore "").is_feasible = false :=
  ⟨fun d => ⟨validateCore d, rfl⟩, by decide, by decide, by decide⟩

/-! ## Claim C8 -/

/-- C8: every message containing "ParserError" whose first `:(\d+):` match is
at line 12 is parsed by `handle_compilation_errors` into a diagnostic of kind
`syntax_error` with line number 12. -/
theorem c8_parser_error_roundtrip (errors : List String) (e : String) (he : e ∈ errors)
    (hp : occursIn "ParserError" e = true) (hl : searchColonNum e.data = some 12) :
    ∃ pe ∈ (handleCompilationErrors errors).parsed_errors,
      pe.original_error = e ∧ pe.error_type = "syntax_error" ∧ pe.line_number = some 12 := by
  have hmem : parseCompError e ∈ (handleCompilationErrors errors).parsed_errors := by
    show parseCompError e ∈ errors.map parseCompError
    exact List.mem_map_of_mem _ he
  refine ⟨parseCompError e, hmem, ?_, ?_, ?_⟩ <;> simp [parseCompError, hp, hl]

/-- Witness for C8 at a concrete diagnostic string. -/
theorem c8_witness :
    ∃ pe ∈ (handleCompilationErrors [c8Message]).parsed_errors,
      pe.original_error = c8Message ∧ pe.error_type = "syntax_error" ∧
      pe.line_number = some 12 :=
  c8_parser_error_roundtrip [c8Message] c8Message (by decide) (by decide) (by decide)

/-! ## Claim C10 -/

/-- The metrics function inventory only counts clean declaration lines: every
name in it comes from a line that (stripped) starts with `function ` and
contains neither `private` nor `internal`. (This half of the inventory
behaviour works in the program: `contract_helpers.py` does import `re`.) -/
theorem metricsFunctionNames_only_clean_lines (src : String) :
    ∀ name ∈ (metricsCore src).function_names, ∃ line ∈ pyLines src,
      strStarts (pyStrip line) "function " = true ∧
      occursIn "private" (pyStrip line) = false ∧
      occursIn "internal" (pyStrip line) = false := by
  intro name hname
  have hname2 : name ∈ (pyLines src).filterMap
      (fun l => match metricsItemOfLine l with | some (.fn n) => some n | _ => none) := hname
  obtain ⟨line, hline, heq⟩ := List.mem_filterMap.mp hname2
  refine ⟨line, hline, ?_⟩
  rcases hml : metricsItemOfLine line with _ | item
  · rw [hml] at heq
    exact absurd heq (by simp)
  · rw [hml] at heq
    cases item <;> simp at heq
    case fn n =>
      simp only [metricsItemOfLine, Bool.and_eq_true, Bool.not_eq_true'] at hml
      split at hml
      · exact absurd hml (by simp)
      split at hml
      · next hcond =>
        obtain ⟨⟨hc0, hc2⟩, hc3⟩ := hcond
        exact ⟨hc0, hc2, hc3⟩
      split at hml
      · exact absurd (Option.map_eq_some'.mp hml) (by rintro ⟨r, -, hr⟩; cases hr)
      split at hml
      · exact absurd (Option.map_eq_some'.mp hml) (by rintro ⟨r, -, hr⟩; cases hr)
      split at hml
      · exact absurd (Option.map_eq_some'.mp hml) (by rintro ⟨r, -, hr⟩; cases hr)
      · exact absurd hml (by simp)

/-- C10 names a code bug: the exclusion behaviour holds for
`get_contract_metrics` (demonstrated at the concrete pair below —
`internalFee` in a parameter name excludes the public function), but the
documentation extractor cannot exhibit it, because `contract_utils.py` never
imports `re`: whenever any clean `function ` line (or any `event `/`modifier `
line) fires its branch, `re.search` raises `NameError` and the whole call
returns the error envelope, so the extractor only ever errors or returns
empty inventories — it never produces a function count or name list at all. -/
theorem c10_doc_extractor_name_error :
    (∀ src : String,
      match generateContractDocumentation src "CustomContract" with
      | .ok info => info.functions = [] ∧ info.events = [] ∧ info.modifiers = []
      | .error m => m = "Documentation generation failed: name \x27re\x27 is not defined") ∧
    generateContractDocumentation "function setFee(uint256 fee) public \x7b\x7d"
      "CustomContract" =
      .error "Documentation generation failed: name \x27re\x27 is not defined" ∧
    generateContractDocumentation "function setFee(uint256 internalFee) public \x7b\x7d"
      "CustomContract" = .ok ⟨[], [], []⟩ ∧
    (metricsCore "function setFee(uint256 fee) public \x7b\x7d").function_names = ["setFee"] ∧
    (metricsCore "function setFee(uint256 internalFee) public \x7b\x7d").function_names = [] := by
  refine ⟨fun src => ?_, rfl, rfl, by decide, by decide⟩
  by_cases h : (pyLines src).any docLineRaises = true
  · simp [generateContractDocumentation, h]
  · simp [generateContractDocumentation, h]

/-! ## Claim C4 -/

/-- Accumulating weights by a fold equals summing the mapped weights. -/
theorem foldl_weight_eq_sum (l : List Sugg) :
    ∀ a : Nat, l.foldl (fun t s => t + weightOf s) a = a + (l.map weightOf).sum := by
  induction l with
  | nil => intro a; simp
  | cons x xs ih =>
    intro a
    simp only [List.foldl_cons, List.map_cons, List.sum_cons]
    rw [ih]
    omega

/-- C4: each finding's label is weighted critical=100, high=80, medium=60,
low=40, anything else 50, and the reported improvement score is
`max(0, 100 - average weight)` over the combined finding list (the average
being the integer quotient by `max(count, 1)`, hence 100 when there are no
findings). -/
theorem c4_improvement_score (code : String) :
    (suggestCore code).gas_optimizations ++ (suggestCore code).security_improvements ++
      (suggestCore code).code_quality ++ (suggestCore code).advanced_patterns =
      allSuggsOf code ∧
    (suggestCore code).improvement_score =
      max 0 (100 -
        ((((allSuggsOf code).map weightOf).sum / max (allSuggsOf code).length 1 : Nat) : Int)) ∧
    ∀ s : Sugg, weightOf s =
      if labelOf s = "critical" then 100
      else if labelOf s = "high" then 80
      else if labelOf s = "medium" then 60
      else if labelOf s = "low" then 40
      else 50 := by
  refine ⟨rfl, ?_, fun s => rfl⟩
  have h1 : (suggestCore code).improvement_score =
      max 0 (100 -
        (((allSuggsOf code).foldl (fun t s => t + weightOf s) 0 /
          max (allSuggsOf code).length 1 : Nat) : Int)) := rfl
  rw [h1, foldl_weight_eq_sum, Nat.zero_add]

/-! ## Claim C3 -/

/-- Once some ABI entry lacks its `type` field, the estimate loop raises:
either an earlier malformed entry already raised, or the loop reaches the
entry missing `type` and its subscript access raises the KeyError. -/
theorem gasLoop_error_of_missing_ty (code : String) :
    ∀ (abi : List AbiEntry) (acc : List (String × FuncGas)),
      (∃ e ∈ abi, e.ty = none) → ∃ m, gasLoop code abi acc = .error m := by
  intro abi
  induction abi with
  | nil =>
    intro acc h
    obtain ⟨e, he, _⟩ := h
    exact absurd he (List.not_mem_nil e)
  | cons e rest ih =>
    intro acc h
    cases hty : e.ty with
    | none => exact ⟨"Gas analysis failed: \x27type\x27", by simp [gasLoop, hty]⟩
    | some t =>
      have hrest : ∃ e2 ∈ rest, e2.ty = none := by
        obtain ⟨e2, he2, hn⟩ := h
        rcases List.mem_cons.mp he2 with rfl | hmem
        · rw [hty] at hn
          cases hn
        · exact ⟨e2, hmem, hn⟩
      by_cases ht : t = "function"
      · cases hn : e.name with
        | none => exact ⟨"Gas analysis failed: \x27name\x27", by simp [gasLoop, hty, ht, hn]⟩
        | some n =>
          obtain ⟨m, hm⟩ := ih (assocSet acc n (mkFuncGas code n (e.stateMutability.getD "nonpayable"))) hrest
          exact ⟨m, by simp [gasLoop, hty, ht, hn, hm]⟩
      · obtain ⟨m, hm⟩ := ih acc hrest
        exact ⟨m, by simp [gasLoop, hty, ht, hm]⟩

/-- C3 is false on the code: on the ABI with one well-formed function entry
and one entry missing `type`, the call does not succeed — it returns the
error envelope produced from the KeyError. -/
theorem c3_counterexample :
    analyzeGasUsage "6060" c3BadAbi "" = .error "Gas analysis failed: \x27type\x27" := rfl

/-- C3 amended: malformed ABI entries are NOT skipped individually — whenever
any entry lacks its `type` field, `analyze_gas_usage` aborts the whole
estimate and returns an error result (no estimates at all). -/
theorem c3_missing_type_aborts (bytecode code : String) (abi : List AbiEntry)
    (h : ∃ e ∈ abi, e.ty = none) :
    ∃ m, analyzeGasUsage bytecode abi code = .error m := by
  obtain ⟨m, hm⟩ := gasLoop_error_of_missing_ty code abi [] h
  exact ⟨m, by simp [analyzeGasUsage, hm]⟩

/-- Witness for C3 at the concrete malformed ABI. -/
theorem c3_witness : ∃ m, analyzeGasUsage "6060" c3BadAbi "" = .error m :=
  c3_missing_type_aborts "6060" "" c3BadAbi ⟨⟨none, none, none⟩, by decide, rfl⟩

/-! ## Claim C7 -/

/-- C7: for a non-view, non-pure function with a located body, one more
`require(` occurrence in the body — everything else (the emit, external-call
and mapping counts) unchanged — raises the estimate by exactly 500 units. -/
theorem c7_require_monotone (s1 s2 n sm : String)
    (h1 : s1 ≠ "") (h2 : s2 ≠ "")
    (_hview : sm ≠ "view") (_hpure : sm ≠ "pure")
    (hemit : strCount (locateBody s2 n) "emit " = strCount (locateBody s1 n) "emit ")
    (hcall : strCount (locateBody s2 n) ".call(" = strCount (locateBody s1 n) ".call(")
    (hmap : strCount (locateBody s2 n) "mapping(" = strCount (locateBody s1 n) "mapping(")
    (hreq : strCount (locateBody s2 n) "require(" = strCount (locateBody s1 n) "require(" + 1) :
    funcGasEstimate s2 n sm = funcGasEstimate s1 n sm + 500 := by
  have he : occursIn "emit " (locateBody s2 n) = occursIn "emit " (locateBody s1 n) :=
    occursIn_congr (by decide) hemit
  have hc : occursIn ".call(" (locateBody s2 n) = occursIn ".call(" (locateBody s1 n) :=
    occursIn_congr (by decide) hcall
  have hm : occursIn "mapping(" (locateBody s2 n) = occursIn "mapping(" (locateBody s1 n) :=
    occursIn_congr (by decide) hmap
  have hr2 : occursIn "require(" (locateBody s2 n) = true := by
    apply occursIn_of_count_ne (by decide)
    rw [hreq]
    omega
  simp only [funcGasEstimate, if_neg h1, if_neg h2]
  rw [he, hc, hm, hr2, hemit, hcall, hmap, hreq]
  rcases Nat.eq_zero_or_pos (strCount (locateBody s1 n) "require(") with hz | hpos
  · have hr1 : occursIn "require(" (locateBody s1 n) = false :=
      not_occursIn_of_count_zero (by decide) hz
    rw [hr1, hz]
    cases occursIn "emit " (locateBody s1 n) <;>
      cases occursIn ".call(" (locateBody s1 n) <;>
      cases occursIn "mapping(" (locateBody s1 n) <;> simp <;> omega
  · have hr1 : occursIn "require(" (locateBody s1 n) = true := by
      apply occursIn_of_count_ne (by decide)
      omega
    rw [hr1]
    cases occursIn "emit " (locateBody s1 n) <;>
      cases occursIn ".call(" (locateBody s1 n) <;>
      cases occursIn "mapping(" (locateBody s1 n) <;> simp <;> omega

/-- Witness for C7: the concrete pair of sources differing by one
`require(`. -/
theorem c7_witness :
    funcGasEstimate c7SourceTwo "foo" "nonpayable" =
      funcGasEstimate c7SourceOne "foo" "nonpayable" + 500 :=
  c7_require_monotone c7SourceOne c7SourceTwo "foo" "nonpayable"
    (by decide) (by decide) (by decide) (by decide)
    (by decide) (by decide) (by decide) (by decide)

/-! ## Claim C6 -/

/-- Setting an absent key appends it. -/
theorem assocSet_not_key (acc : List (String × FuncGas)) (k : String) (v : FuncGas)
    (h : assocHasKey acc k = false) : assocSet acc k v = acc ++ [(k, v)] := by
  induction acc with
  | nil => rfl
  | cons p rest ih =>
    obtain ⟨k2, v2⟩ := p
    simp only [assocHasKey, Bool.or_eq_false_iff] at h
    obtain ⟨hk2, hrest⟩ := h
    have hne : ¬(k2 = k) := by
      intro hk
      rw [hk] at hk2
      simp at hk2
    simp only [assocSet, if_neg hne, ih hrest, List.cons_append]

/-- Key presence after appending a single binding. -/
theorem assocHasKey_append (acc : List (String × FuncGas)) (k : String) (v : FuncGas)
    (m : String) : assocHasKey (acc ++ [(k, v)]) m = (assocHasKey acc m || (k == m)) := by
  induction acc with
  | nil => simp [assocHasKey]
  | cons p rest ih =>
    obtain ⟨k2, v2⟩ := p
    simp only [List.cons_append, assocHasKey, List.append_eq, ih, Bool.or_assoc]

/-- On a well-formed ABI with pairwise-distinct function names, none of which
occurs in the accumulator, the estimate loop succeeds and appends one
estimate per entry, in ABI order. -/
theorem gasLoop_wf (code : String) :
    ∀ (abi : List AbiEntry) (acc : List (String × FuncGas)),
      (∀ e ∈ abi, e.ty = some "function" ∧ e.name ≠ none) →
      (abi.map entryName).Nodup →
      (∀ e ∈ abi, assocHasKey acc (entryName e) = false) →
      gasLoop code abi acc =
        .ok (acc ++ abi.map fun e =>
          (entryName e, mkFuncGas code (entryName e) (e.stateMutability.getD "nonpayable"))) := by
  intro abi
  induction abi with
  | nil =>
    intro acc _ _ _
    simp [gasLoop]
  | cons e rest ih =>
    intro acc hwf hnd hacc
    obtain ⟨hty, hname⟩ := hwf e (List.mem_cons_self e rest)
    cases hn : e.name with
    | none => exact absurd hn hname
    | some n =>
      have hen : entryName e = n := by simp [entryName, hn]
      have hkey : assocHasKey acc n = false := by
        rw [← hen]
        exact hacc e (List.mem_cons_self e rest)
      rw [List.map_cons] at hnd
      obtain ⟨hnotin, hndrest⟩ := List.nodup_cons.mp hnd
      have step : gasLoop code (e :: rest) acc =
          gasLoop code rest
            (assocSet acc n (mkFuncGas code n (e.stateMutability.getD "nonpayable"))) := by
        simp [gasLoop, hty, hn]
      rw [step, assocSet_not_key acc n _ hkey]
      rw [ih _ (fun e2 he2 => hwf e2 (List.mem_cons_of_mem e he2)) hndrest ?_]
      · rw [List.map_cons, hen, List.append_assoc]
        rfl
      · intro e2 he2
        have h1 : assocHasKey acc (entryName e2) = false :=
          hacc e2 (List.mem_cons_of_mem e he2)
        have h2 : (n == entryName e2) = false := by
          rw [← hen]
          have hne : entryName e ≠ entryName e2 := by
            intro hEq
            exact hnotin (hEq ▸ List.mem_map_of_mem entryName he2)
          simpa using hne
        simp [assocHasKey_append, h1, h2]

/-- C6: with no source text, every well-formed function entry's estimate is
exactly the priority-ordered base rule: view/pure mutability 500; else a
(lowercased) name containing `mint` 50000; else `transfer` 21000; else
`approve` 45000; otherwise 25000. -/
theorem c6_base_gas_rules (bytecode : String) (abi : List AbiEntry)
    (hwf : ∀ e ∈ abi, e.ty = some "function" ∧ e.name ≠ none)
    (hnd : (abi.map entryName).Nodup) :
    ∃ d, analyzeGasUsage bytecode abi "" = .ok d ∧
      d.function_gas_estimates.map (fun p => (p.1, p.2.estimated_gas)) =
        abi.map fun e =>
          (entryName e,
            if e.stateMutability.getD "nonpayable" = "view" ∨
               e.stateMutability.getD "nonpayable" = "pure" then 500
            else if occursIn "mint" (lowerStr (entryName e)) then 50000
            else if occursIn "transfer" (lowerStr (entryName e)) then 21000
            else if occursIn "approve" (lowerStr (entryName e)) then 45000
            else 25000) := by
  have hl := gasLoop_wf "" abi [] hwf hnd (fun e _ => rfl)
  unfold analyzeGasUsage
  rw [hl]
  refine ⟨_, rfl, ?_⟩
  show (abi.map fun e =>
      (entryName e, mkFuncGas "" (entryName e) (e.stateMutability.getD "nonpayable"))).map
      (fun p => (p.1, p.2.estimated_gas)) = _
  rw [List.map_map]
  rfl

/-- Witness for C6: the one-view-one-mint ABI yields estimates exactly 500
and 50000. -/
theorem c6_witness :
    ∃ d, analyzeGasUsage "6060" c6Abi "" = .ok d ∧
      d.function_gas_estimates.map (fun p => (p.1, p.2.estimated_gas)) =
        [("getX", 500), ("mintTokens", 50000)] := by
  obtain ⟨d, hd, hm⟩ := c6_base_gas_rules "6060" c6Abi (by decide) (by decide)
  exact ⟨d, hd, hm.trans (by decide)⟩

end SCAnalysis
